import Mathlib

/-!
Verification of the `cl` command (`src/main.go`), a thin orchestrator that
resolves the external imports of a Go module and delegates capability
analysis to the external `capslock` binary.

The program is shallowly embedded: every external collaborator the program
calls (the `go` toolchain, the package loader, the `capslock` binary, the
filesystem, and the nondeterministic iteration order of Go maps) is a field
of an `Oracle` record, and the program's own logic is translated line by
line into pure Lean functions.  A run produces a `RunResult` recording the
process exit code, the chunks written to standard output, the argument
vectors of each invocation of the external analyzer, and the file writes
performed — or `Outcome.panicked` when the program hits a nil-pointer
dereference.
-/

namespace Cl

/-- Exit status codes (`src/main.go`, the `const` block): `success = 0` and
then `1 << (iota - 1)` giving 1, 2, 4. -/
def success : Nat := 0

/-- Internal-error exit code, `1 << 0`. -/
def internalError : Nat := 1 <<< 0

/-- Invocation-error exit code, `1 << 1`. -/
def invocationError : Nat := 1 <<< 1

/-- Capability-change exit code, `1 << 2`. -/
def capChangeError : Nat := 1 <<< 2

/-- A loaded package as returned by `packages.Load`: its identifier
(`pkg.String()`), its module association (`pkg.Module`; `none` models a nil
module pointer) and the keys of its direct-import map (`pkg.Imports`), in
the arbitrary order Go map iteration yields them. -/
structure GoPackage where
  pid : String
  module : Option String
  imports : List String
deriving Repr, DecidableEq

/-- `matchers` (`src/main.go`): the compiled ignore patterns.  The Go
regular-expression engine is abstracted as a predicate on paths standing
for `re.MatchString` (an unanchored search). -/
abbrev Matchers := List (String → Bool)

/-- `matchers.match`: true when some matcher accepts the path; the loop
returns at the first match, which is the short-circuit behaviour of
`List.any`. -/
def Matchers.matched (m : Matchers) (s : String) : Bool :=
  m.any fun re => re s

/-- The result of running an external command: `failed` carries the captured
standard-error text when `cmd.Run` reports failure, `out` carries the
captured standard-output text on success. -/
inductive ExtRun where
  | failed (errText : String)
  | out (stdoutText : String)
deriving Repr, DecidableEq

/-- Result of running code that may hit a nil-pointer dereference. -/
inductive Outcome (α : Type) where
  | panicked
  | ok (val : α)
deriving Repr, DecidableEq

/-- The external collaborators `main.go` consults, together with the
nondeterministic choices the Go runtime makes, packaged as one environment:
the host GOOS/GOARCH defaults, the regular-expression compiler, the
`go env GOMOD` invocation, the platform null-device name and directory
function (`filepath.Dir`), `os.Getwd`, the package loader (returning the
loaded packages and the count reported by `packages.PrintErrors`), the
`go list -f .Standard` query, the `capslock` binary, `os.WriteFile`
(returning `some` error text or `none`), and the iteration order of the
`imps` map. -/
structure Oracle where
  hostGOOS : String
  hostGOARCH : String
  regexpCompile : String → Except String (String → Bool)
  gomodRun : ExtRun
  devNull : String
  dirFn : String → String
  getwd : Except String String
  load : String → Except String (List GoPackage × Nat)
  goListStd : String → String → String → ExtRun
  capsRun : List String → ExtRun
  fwrite : String → String → Option String
  impsOrder : List (String × List String) → List (String × List String)

/-- Unix `filepath.Join root name` for a clean, nonempty root. -/
def pathJoin (root name : String) : String := root ++ "/" ++ name

/-- `strings.TrimSpace`: drop whitespace from both ends. -/
def trimSpace (s : String) : String :=
  ⟨((s.data.dropWhile Char.isWhitespace).reverse.dropWhile
    Char.isWhitespace).reverse⟩

/-- `strings.HasPrefix s pre` as `strPre pre s`: is `pre` a prefix of `s`?
(UTF-8 is order- and prefix-faithful to code points, so the character-level
check coincides with Go's byte-level one.) -/
def strPre (pre s : String) : Bool := pre.data.isPrefixOf s.data

/-- Bytewise lexicographic string comparison at the character level, the
order `sort.Strings` uses (UTF-8 byte order coincides with code-point
order). -/
def leChars : List Char → List Char → Bool
  | [], _ => true
  | _ :: _, [] => false
  | a :: as, b :: bs =>
    if a.toNat < b.toNat then true
    else if b.toNat < a.toNat then false
    else leChars as bs

/-- `a <= b` on strings, as `sort.Strings` compares. -/
def strLe (a b : String) : Bool := leChars a.data b.data

/-- `moduleRoot` (`src/main.go`): run `go env GOMOD`; on command failure
report an error with `valid = false`; on empty trimmed output or the null
device report an error with `valid = true`; otherwise the root is the
directory of the `go.mod` path.  Returns `(root, valid, err)`. -/
def moduleRoot (o : Oracle) : String × Bool × Option String :=
  match o.gomodRun with
  | .failed e => ("", false, some ("go env exit status: " ++ e))
  | .out s =>
    let gomod := trimSpace s
    if gomod = "" then ("", true, some "go tool not running in module mode")
    else if gomod = o.devNull then ("", true, some "no go.mod")
    else (o.dirFn gomod, true, none)

/-- `isStdlib` (`src/main.go`): run `go list -f .Standard p` under the given
GOOS/GOARCH; on success the answer is whether the trimmed output equals
"true"; on failure the error keeps the text before the first semicolon of
standard error when one is present (`strings.Cut`). -/
def isStdlib (o : Oracle) (p goos goarch : String) : Except String Bool :=
  match o.goListStd p goos goarch with
  | .failed e =>
    match e.splitOn ";" with
    | note :: _ :: _ => .error ("go list exit status: " ++ note)
    | _ => .error ("go list exit status: " ++ e)
  | .out s => .ok (trimSpace s = "true")

/-- The argument vector handed to the external `capslock` binary
(`src/main.go`, function `capslock`): GOOS, GOARCH, output format, the
comma-joined package list; for the compare format the baseline path is a
trailing positional argument; a custom capability map adds
`capability_map` and optionally `disable_builtin`. -/
def capslockArgs (goos goarch : String) (pkgs : List String)
    (format path custom : String) (noBuiltin : Bool) : List String :=
  let args := ["-goos", goos, "-goarch", goarch, "-output", format,
    "-packages", String.intercalate "," pkgs]
  let args := if format = "compare" then args ++ [path] else args
  if custom ≠ "" then
    args ++ ["capability_map", custom] ++
      (if noBuiltin then ["disable_builtin"] else [])
  else args

/-- Result of the `capslock` helper: either the command failed (with the
wrapped standard-error text), or it succeeded with output `buf`, the
possible file-write error `werr`, the argument vector used, and the
completed file write `wrote`. -/
inductive CapsRet where
  | failed (msg : String) (call : List String)
  | succeeded (buf : String) (werr : Option String) (call : List String)
      (wrote : Option (String × String))
deriving Repr, DecidableEq

/-- `capslock` (`src/main.go`): run the external analyzer; for any format
other than compare, persist its standard output to `path` (the write error,
if any, is returned alongside the buffer, exactly as the Go function
returns `&buf, err`). -/
def capslock (o : Oracle) (goos goarch : String) (pkgs : List String)
    (format path custom : String) (noBuiltin : Bool) : CapsRet :=
  let args := capslockArgs goos goarch pkgs format path custom noBuiltin
  match o.capsRun args with
  | .failed e => .failed ("capslock: exit status: " ++ e) args
  | .out s =>
    if format ≠ "compare" then
      match o.fwrite path s with
      | some we => .succeeded s (some we) args none
      | none => .succeeded s none args (some (path, s))
    else .succeeded s none args none

/-- `imps[imp] = append(imps[imp], importer)`: the association list stands
for the Go map from import path to the list of importing packages, keys in
first-insertion order (the later iteration order is supplied separately by
`Oracle.impsOrder`). -/
def addImp (imps : List (String × List String)) (imp importer : String) :
    List (String × List String) :=
  match imps with
  | [] => [(imp, [importer])]
  | (k, v) :: rest =>
    if k = imp then (k, v ++ [importer]) :: rest
    else (k, v) :: addImp rest imp importer

/-- The inner loop of the import collection (`src/main.go`, `analyse`):
walk one package's direct imports; `pkg.Module.Path` is dereferenced for
each import with no nil check, so a nil module panics; an import prefixed
by the module path is skipped, an import matched by the ignore patterns is
skipped, any other import is recorded with its importer. -/
def collectPkgImports (ignore : Matchers) (pkg : GoPackage) :
    List String → List (String × List String) →
    Outcome (List (String × List String))
  | [], acc => .ok acc
  | imp :: rest, acc =>
    match pkg.module with
    | none => .panicked
    | some mpath =>
      if strPre mpath imp then collectPkgImports ignore pkg rest acc
      else if ignore.matched imp then collectPkgImports ignore pkg rest acc
      else collectPkgImports ignore pkg rest (addImp acc imp pkg.pid)

/-- The outer loop of the import collection over all loaded packages. -/
def collectImports (ignore : Matchers) :
    List GoPackage → List (String × List String) →
    Outcome (List (String × List String))
  | [], acc => .ok acc
  | pkg :: rest, acc =>
    match collectPkgImports ignore pkg pkg.imports acc with
    | .panicked => .panicked
    | .ok acc2 => collectImports ignore rest acc2

/-- The standard-library filter (`src/main.go`, `analyse`): walk the `imps`
entries in the supplied order; when stdlib inclusion is off, classify each
path, aborting on a classification error (the message names the importers)
and dropping paths classified as standard library; every surviving path is
appended to the result. -/
def filterStdlib (o : Oracle) (goos goarch : String) (stdlib : Bool) :
    List (String × List String) → List String → Except String (List String)
  | [], acc => .ok acc
  | (i, importers) :: rest, acc =>
    if stdlib then filterStdlib o goos goarch stdlib rest (acc ++ [i])
    else
      match isStdlib o i goos goarch with
      | .error e =>
        .error (e ++ ": imported by " ++ String.intercalate "," importers)
      | .ok true => filterStdlib o goos goarch stdlib rest acc
      | .ok false => filterStdlib o goos goarch stdlib rest (acc ++ [i])

/-- `sort.Strings`: ascending string sort (any sorted permutation is
unique for a total order with identical equal elements, so insertion sort
models the unstable Go sort faithfully). -/
def sortStrings (l : List String) : List String :=
  List.insertionSort (fun a b => strLe a b = true) l

/-- The observable result of a run: the exit code, the chunks written to
standard output, the argument vector of each invocation of the external
analyzer, and the completed baseline-file writes, in order. -/
structure RunResult where
  exit : Nat
  stdout : List String
  capsCalls : List (List String)
  fileWrites : List (String × String)
deriving Repr, DecidableEq

/-- The resolution phase of `analyse` (`src/main.go` up to the `list`
check): resolve the module root (unconditionally), replace it by the
working directory when `-mod=false`, load the package graph under the
root, fail on loader errors, collect the external imports (which may
panic), and filter out standard-library paths.  Returns either an exit
code or the root together with the resolved import list. -/
def resolvePhase (o : Oracle) (goos goarch : String) (ignore : Matchers)
    (module stdlib : Bool) : Outcome (Except Nat (String × List String)) :=
  match moduleRoot o with
  | (_, valid, some _) =>
    .ok (.error (if valid then invocationError else internalError))
  | (root0, _, none) =>
    let rootE : Except Unit String :=
      if module then .ok root0
      else
        match o.getwd with
        | .error _ => .error ()
        | .ok wd => .ok wd
    match rootE with
    | .error _ => .ok (.error internalError)
    | .ok root =>
      match o.load (pathJoin root "...") with
      | .error _ => .ok (.error internalError)
      | .ok (pkgs, nerrs) =>
        if nerrs ≠ 0 then .ok (.error internalError)
        else
          match collectImports ignore pkgs [] with
          | .panicked => .panicked
          | .ok imps =>
            match filterStdlib o goos goarch stdlib (o.impsOrder imps) [] with
            | .error _ => .ok (.error internalError)
            | .ok imports => .ok (.ok (root, imports))

/-- The tail of `analyse` after a successful resolution: the listing,
baseline-writing and comparing branches. -/
def postResolve (o : Oracle) (goos goarch : String) (root : String)
    (imports : List String) (list lock verbose noBuiltin : Bool)
    (custom : String) : RunResult :=
  if list then
    ⟨success, (sortStrings imports).map (fun i => i ++ "\n"), [], []⟩
  else if lock then
    match capslock o goos goarch imports "verbose"
        (pathJoin root "caps.summary") custom noBuiltin with
    | .failed _ c1 => ⟨internalError, [], [c1], []⟩
    | .succeeded buf1 werr1 c1 w1 =>
      match werr1 with
      | some _ => ⟨internalError, [], [c1], w1.toList⟩
      | none =>
        let out1 := if verbose then [buf1 ++ "\n"] else []
        match capslock o goos goarch imports "json"
            (pathJoin root "caps.lock") custom noBuiltin with
        | .failed _ c2 => ⟨internalError, out1, [c1, c2], w1.toList⟩
        | .succeeded _ werr2 c2 w2 =>
          match werr2 with
          | some _ => ⟨internalError, out1, [c1, c2], w1.toList ++ w2.toList⟩
          | none => ⟨success, out1, [c1, c2], w1.toList ++ w2.toList⟩
  else
    match capslock o goos goarch imports "compare"
        (pathJoin root "caps.lock") custom noBuiltin with
    | .failed _ c => ⟨internalError, [], [c], []⟩
    | .succeeded buf werr c w =>
      match werr with
      | some _ => ⟨internalError, [], [c], w.toList⟩
      | none =>
        if buf = "" then ⟨success, [buf], [c], w.toList⟩
        else ⟨capChangeError, [buf], [c], w.toList⟩

/-- `analyse` (`src/main.go`): the resolution phase followed by the
listing, baseline-writing or comparing branch. -/
def analyse (o : Oracle) (goos goarch : String) (ignore : Matchers)
    (module list lock stdlib verbose noBuiltin : Bool) (custom : String) :
    Outcome RunResult :=
  match resolvePhase o goos goarch ignore module stdlib with
  | .panicked => .panicked
  | .ok (.error code) => .ok ⟨code, [], [], []⟩
  | .ok (.ok (root, imports)) =>
    .ok (postResolve o goos goarch root imports list lock verbose noBuiltin
      custom)

/-- `set.regexps` (`src/main.go`): compile every ignore pattern, failing on
the first compilation error. -/
def setRegexps (compile : String → Except String (String → Bool)) :
    List String → Except String Matchers
  | [] => .ok []
  | p :: rest =>
    match compile p with
    | .error e => .error e
    | .ok r =>
      match setRegexps compile rest with
      | .error e => .error e
      | .ok rs => .ok (r :: rs)

/-- `Main` (`src/main.go`): compile the ignore patterns, reject
`-disable_builtin` without `-capability_map`, reject ignore-pattern
compilation errors, default GOOS/GOARCH from the host, and run `analyse`.
The ignore patterns arrive as a list in the arbitrary order Go map
iteration yields them. -/
def MainRun (o : Oracle) (lock module list stdlib verbose : Bool)
    (goos goarch custom : String) (noBuiltin : Bool)
    (ignorePatterns : List String) : Outcome RunResult :=
  let ignorerE := setRegexps o.regexpCompile ignorePatterns
  if noBuiltin ∧ custom = "" then .ok ⟨invocationError, [], [], []⟩
  else
    match ignorerE with
    | .error _ => .ok ⟨invocationError, [], [], []⟩
    | .ok ignorer =>
      let goos2 := if goos = "" then o.hostGOOS else goos
      let goarch2 := if goarch = "" then o.hostGOARCH else goarch
      analyse o goos2 goarch2 ignorer module list lock stdlib verbose
        noBuiltin custom

/-- The keys of the `imps` association list (the import paths recorded). -/
def impKeys (l : List (String × List String)) : List String := l.map Prod.fst

/-- A concrete healthy environment used to exercise the program: a module
rooted at `/m` whose packages import `x/y`, `m/inner` (internal) and `a/b`,
none of them standard library, with a working directory `/w`, an analyzer
that reports a difference, and writable files. -/
def oBase : Oracle := {
  hostGOOS := "linux"
  hostGOARCH := "amd64"
  regexpCompile := fun _ => .ok (fun _ => false)
  gomodRun := .out "/m/go.mod\n"
  devNull := "/dev/null"
  dirFn := fun s => if s = "/m/go.mod" then "/m" else "?"
  getwd := .ok "/w"
  load := fun _ => .ok ([⟨"p", some "m", ["x/y", "m/inner", "a/b"]⟩], 0)
  goListStd := fun _ _ _ => .out "false\n"
  capsRun := fun _ => .out "diff"
  fwrite := fun _ _ => none
  impsOrder := id
}

/-- An environment whose `go env GOMOD` invocation fails. -/
def oC2fail : Oracle := { oBase with gomodRun := .failed "exec failure" }

/-- An environment whose loader only succeeds for the pattern rooted at the
working directory `/w`, so a successful load shows the root used. -/
def oC2run : Oracle := { oBase with
  load := fun pat =>
    if pat = "/w/..." then .ok ([⟨"p", some "m", ["x/y"]⟩], 0)
    else .error "load outside cwd" }

/-- An environment where `go env GOMOD` prints nothing (the toolchain is
not running in module-aware mode). -/
def oC3empty : Oracle := { oBase with gomodRun := .out "" }

/-- An environment where `go env GOMOD` prints the null device (no go.mod
found). -/
def oC3dev : Oracle := { oBase with gomodRun := .out "/dev/null\n" }

/-- Two loaded packages from different modules, both importing `m/inner`,
which is internal to the first package's module but external to the
second's. -/
def pkgsC6 : List GoPackage :=
  [⟨"p1", some "m", ["m/inner"]⟩, ⟨"p2", some "zzz", ["m/inner"]⟩]

/-- An environment whose loader returns `pkgsC6`. -/
def oC6 : Oracle := { oBase with load := fun _ => .ok (pkgsC6, 0) }

/-- An environment with a single loaded package whose only imports are its
own module's `m/inner` and the external `x/y`. -/
def oC6w : Oracle :=
  { oBase with load := fun _ => .ok ([⟨"p1", some "m", ["m/inner", "x/y"]⟩], 0) }

/-- An environment whose analyzer answers `SUM` to the verbose invocation
and `LOCKJSON` to any other. -/
def oC7 : Oracle := { oBase with
  capsRun := fun args =>
    if args.contains "verbose" then .out "SUM" else .out "LOCKJSON" }

/-- An environment resolving to the import set `b`, `a` in that collection
order, whose analyzer reports no difference. -/
def oC9a : Oracle := { oBase with
  load := fun _ => .ok ([⟨"p", some "m", ["b", "a"]⟩], 0)
  capsRun := fun _ => .out "" }

/-- The same environment with the opposite map-iteration order. -/
def oC9b : Oracle := { oC9a with impsOrder := List.reverse }

/-- An environment whose loader returns a package with no module
association (a nil `pkg.Module`) and a nonempty import map. -/
def oC10 : Oracle := { oBase with load := fun _ => .ok ([⟨"p", none, ["x"]⟩], 0) }


/-! ### Helper lemmas -/

lemma mem_impKeys_addImp {acc : List (String × List String)} {i importer x : String} :
    x ∈ impKeys (addImp acc i importer) ↔ x = i ∨ x ∈ impKeys acc := by
  induction acc with
  | nil => simp [addImp, impKeys]
  | cons hd tl ih =>
    obtain ⟨k, v⟩ := hd
    by_cases hk : k = i
    · subst hk
      simp [addImp, impKeys]
    · simp [addImp, hk, impKeys] at ih ⊢
      tauto

lemma collectPkg_keeps_out {ignore : Matchers} {pkg : GoPackage} {imp : String} :
    ∀ {is : List String} {acc r : List (String × List String)},
    (∀ m, pkg.module = some m → imp ∈ is →
      strPre m imp = true ∨ Matchers.matched ignore imp = true) →
    collectPkgImports ignore pkg is acc = .ok r →
    imp ∉ impKeys acc → imp ∉ impKeys r := by
  intro is
  induction is with
  | nil =>
    intro acc r _ h hacc
    simp [collectPkgImports] at h
    subst h
    exact hacc
  | cons i rest ih =>
    intro acc r hpre h hacc
    rcases hm : pkg.module with _ | m
    · simp [collectPkgImports, hm] at h
    · simp only [collectPkgImports, hm] at h
      by_cases hp : strPre m i = true
      · rw [if_pos hp] at h
        exact ih (fun m' hm' hin => hpre m' hm' (List.mem_cons_of_mem _ hin)) h hacc
      · rw [if_neg hp] at h
        by_cases hmt : Matchers.matched ignore i = true
        · rw [if_pos hmt] at h
          exact ih (fun m' hm' hin => hpre m' hm' (List.mem_cons_of_mem _ hin)) h hacc
        · rw [if_neg hmt] at h
          refine ih (fun m' hm' hin => hpre m' hm' (List.mem_cons_of_mem _ hin)) h ?_
          rw [mem_impKeys_addImp]
          rintro (rfl | hmem)
          · rcases hpre m hm (List.mem_cons_self _ _) with hc | hc
            · exact hp hc
            · exact hmt hc
          · exact hacc hmem

lemma collectImports_keeps_out {ignore : Matchers} {imp : String} :
    ∀ {pkgs : List GoPackage} {acc r : List (String × List String)},
    (∀ pkg ∈ pkgs, ∀ m, pkg.module = some m → imp ∈ pkg.imports →
      strPre m imp = true ∨ Matchers.matched ignore imp = true) →
    collectImports ignore pkgs acc = .ok r →
    imp ∉ impKeys acc → imp ∉ impKeys r := by
  intro pkgs
  induction pkgs with
  | nil =>
    intro acc r _ h hacc
    simp [collectImports] at h
    subst h
    exact hacc
  | cons pkg rest ih =>
    intro acc r hall h hacc
    simp only [collectImports] at h
    rcases hc : collectPkgImports ignore pkg pkg.imports acc with _ | acc2
    · rw [hc] at h
      simp at h
    · rw [hc] at h
      have h1 := collectPkg_keeps_out (fun m hm hin => hall pkg (List.mem_cons_self _ _) m hm hin) hc hacc
      exact ih (fun p hp => hall p (List.mem_cons_of_mem _ hp)) h h1

lemma filterStdlib_subset {o : Oracle} {goos goarch : String} {stdlib : Bool} :
    ∀ {entries : List (String × List String)} {acc r : List String},
    filterStdlib o goos goarch stdlib entries acc = .ok r →
    ∀ x ∈ r, x ∈ impKeys entries ∨ x ∈ acc := by
  intro entries
  induction entries with
  | nil =>
    intro acc r h x hx
    simp [filterStdlib] at h
    subst h
    exact Or.inr hx
  | cons e rest ih =>
    intro acc r h x hx
    obtain ⟨i, importers⟩ := e
    simp only [filterStdlib] at h
    by_cases hs : stdlib
    · rw [if_pos hs] at h
      rcases ih h x hx with hk | hmem
      · exact Or.inl (by simp [impKeys] at hk ⊢; tauto)
      · simp at hmem
        rcases hmem with hmem | rfl
        · exact Or.inr hmem
        · exact Or.inl (by simp [impKeys])
    · rw [if_neg hs] at h
      rcases hstd : isStdlib o i goos goarch with e' | b
      · rw [hstd] at h
        simp at h
      · rw [hstd] at h
        rcases b with _ | _
        · simp only [] at h
          rcases ih h x hx with hk | hmem
          · exact Or.inl (by simp [impKeys] at hk ⊢; tauto)
          · simp at hmem
            rcases hmem with hmem | rfl
            · exact Or.inr hmem
            · exact Or.inl (by simp [impKeys])
        · simp only [] at h
          rcases ih h x hx with hk | hmem
          · exact Or.inl (by simp [impKeys] at hk ⊢; tauto)
          · exact Or.inr hmem

lemma resolve_excludes {o : Oracle} {goos goarch : String} {ignore : Matchers}
    {module stdlib : Bool} {root : String} {imports : List String} {imp : String}
    (hord : ∀ l x, x ∈ o.impsOrder l → x ∈ l)
    (hall : ∀ pat pkgs n, o.load pat = .ok (pkgs, n) → ∀ pkg ∈ pkgs, ∀ m,
      pkg.module = some m → imp ∈ pkg.imports →
      strPre m imp = true ∨ Matchers.matched ignore imp = true)
    (hres : resolvePhase o goos goarch ignore module stdlib = .ok (.ok (root, imports))) :
    imp ∉ imports := by
  unfold resolvePhase at hres
  rcases h1 : moduleRoot o with ⟨r0, valid, merr⟩
  rw [h1] at hres
  rcases merr with _ | e
  · simp only [] at hres
    rcases hroot : (if module then (Except.ok r0 : Except Unit String)
      else match o.getwd with
        | .error _ => .error ()
        | .ok wd => .ok wd) with _ | rt
    · rw [hroot] at hres
      simp at hres
    · rw [hroot] at hres
      simp only [] at hres
      rcases h3 : o.load (pathJoin rt "...") with le | ⟨pkgs, nerrs⟩
      · rw [h3] at hres
        simp at hres
      · rw [h3] at hres
        simp only [] at hres
        by_cases hn : nerrs ≠ 0
        · rw [if_pos hn] at hres
          simp at hres
        · rw [if_neg hn] at hres
          rcases h4 : collectImports ignore pkgs [] with _ | imps
          · rw [h4] at hres
            simp at hres
          · rw [h4] at hres
            simp only [] at hres
            rcases h5 : filterStdlib o goos goarch stdlib (o.impsOrder imps) [] with e5 | imports0
            · rw [h5] at hres
              simp at hres
            · rw [h5] at hres
              simp only [Outcome.ok.injEq, Except.ok.injEq, Prod.mk.injEq] at hres
              obtain ⟨hrt, himp⟩ := hres
              subst himp
              intro hmem
              have hnotkeys : imp ∉ impKeys imps :=
                collectImports_keeps_out (hall _ _ _ h3) h4 (by simp [impKeys])
              rcases filterStdlib_subset h5 imp hmem with hk | hf
              · apply hnotkeys
                simp only [impKeys, List.mem_map] at hk ⊢
                obtain ⟨pr, hpr, hfst⟩ := hk
                exact ⟨pr, hord _ _ hpr, hfst⟩
              · simp at hf
  · simp at hres

lemma collectPkg_ok (ignore : Matchers) {pkg : GoPackage} {m : String}
    (hm : pkg.module = some m) :
    ∀ (is : List String) (acc : List (String × List String)),
    ∃ r, collectPkgImports ignore pkg is acc = .ok r := by
  intro is
  induction is with
  | nil => intro acc; exact ⟨acc, rfl⟩
  | cons i rest ih =>
    intro acc
    simp only [collectPkgImports, hm]
    by_cases hp : strPre m i = true
    · rw [if_pos hp]; exact ih acc
    · rw [if_neg hp]
      by_cases hmt : Matchers.matched ignore i = true
      · rw [if_pos hmt]; exact ih acc
      · rw [if_neg hmt]; exact ih (addImp acc i pkg.pid)

lemma collectImports_ok (ignore : Matchers) {pkgs : List GoPackage}
    (hall : ∀ pkg ∈ pkgs, pkg.module.isSome) :
    ∀ acc, ∃ r, collectImports ignore pkgs acc = .ok r := by
  induction pkgs with
  | nil => intro acc; exact ⟨acc, rfl⟩
  | cons pkg rest ih =>
    intro acc
    have hm := hall pkg (List.mem_cons_self _ _)
    rcases hmod : pkg.module with _ | m
    · rw [hmod] at hm; simp at hm
    · obtain ⟨acc2, hacc2⟩ := collectPkg_ok ignore hmod pkg.imports acc
      obtain ⟨r, hr⟩ := ih (fun p hp => hall p (List.mem_cons_of_mem _ hp)) acc2
      exact ⟨r, by simp only [collectImports, hacc2, hr]⟩

lemma resolvePhase_no_panic {o : Oracle} {goos goarch : String} {ignore : Matchers}
    {module stdlib : Bool}
    (hmod : ∀ pat pkgs n, o.load pat = .ok (pkgs, n) → ∀ pkg ∈ pkgs, pkg.module.isSome) :
    resolvePhase o goos goarch ignore module stdlib ≠ .panicked := by
  unfold resolvePhase
  rcases h1 : moduleRoot o with ⟨r0, valid, merr⟩
  rcases merr with _ | e
  · simp only []
    rcases hroot : (if module then (Except.ok r0 : Except Unit String)
      else match o.getwd with
        | .error _ => .error ()
        | .ok wd => .ok wd) with _ | rt
    · simp
    · simp only []
      rcases h3 : o.load (pathJoin rt "...") with le | ⟨pkgs, nerrs⟩
      · simp
      · simp only []
        by_cases hn : nerrs ≠ 0
        · rw [if_pos hn]; simp
        · rw [if_neg hn]
          obtain ⟨r, hr⟩ := collectImports_ok ignore (hmod _ _ _ h3) ([] : List (String × List String))
          rcases h5 : filterStdlib o goos goarch stdlib (o.impsOrder r) [] with e5 | imports0 <;>
            simp [hr, h5]
  · simp

lemma resolve_root_cwd {o : Oracle} {goos goarch : String} {ignore : Matchers}
    {stdlib : Bool} {wd root : String} {imports : List String}
    (hwd : o.getwd = .ok wd)
    (hres : resolvePhase o goos goarch ignore false stdlib = .ok (.ok (root, imports))) :
    root = wd := by
  unfold resolvePhase at hres
  rcases h1 : moduleRoot o with ⟨r0, valid, merr⟩
  rw [h1] at hres
  rcases merr with _ | e
  · simp only [Bool.false_eq_true, if_false, hwd] at hres
    rcases h3 : o.load (pathJoin wd "...") with le | ⟨pkgs, nerrs⟩
    · rw [h3] at hres; simp at hres
    · rw [h3] at hres
      simp only [] at hres
      by_cases hn : nerrs ≠ 0
      · rw [if_pos hn] at hres; simp at hres
      · rw [if_neg hn] at hres
        rcases h4 : collectImports ignore pkgs [] with _ | imps
        · rw [h4] at hres; simp at hres
        · rw [h4] at hres
          simp only [] at hres
          rcases h5 : filterStdlib o goos goarch stdlib (o.impsOrder imps) [] with e5 | imports0
          · rw [h5] at hres; simp at hres
          · rw [h5] at hres
            simp only [Outcome.ok.injEq, Except.ok.injEq, Prod.mk.injEq] at hres
            exact hres.1.symm
  · simp at hres

lemma analyse_gomod_failed {o : Oracle} {goos goarch : String} {ignore : Matchers}
    {module list lock stdlib verbose noBuiltin : Bool} {custom e : String}
    (hg : o.gomodRun = .failed e) :
    analyse o goos goarch ignore module list lock stdlib verbose noBuiltin custom =
      .ok ⟨internalError, [], [], []⟩ := by
  unfold analyse resolvePhase moduleRoot
  rw [hg]
  rfl

lemma analyse_gomod_invalid {o : Oracle} {goos goarch : String} {ignore : Matchers}
    {module list lock stdlib verbose noBuiltin : Bool} {custom s : String}
    (hg : o.gomodRun = .out s)
    (hempty : trimSpace s = "" ∨ trimSpace s = o.devNull) :
    analyse o goos goarch ignore module list lock stdlib verbose noBuiltin custom =
      .ok ⟨invocationError, [], [], []⟩ := by
  unfold analyse resolvePhase moduleRoot
  rw [hg]
  rcases hempty with h | h
  · simp [h]
  · by_cases h0 : trimSpace s = ""
    · simp [h0]
    · have hd : o.devNull ≠ "" := fun hh => h0 (h.trans hh)
      simp [h0, h, hd]

lemma leChars_cons_iff {a b : Char} {as bs : List Char} :
    leChars (a :: as) (b :: bs) = true ↔
      a.toNat < b.toNat ∨ (a.toNat = b.toNat ∧ leChars as bs = true) := by
  simp only [leChars]
  by_cases hab : a.toNat < b.toNat
  · simp [hab]
  · by_cases hba : b.toNat < a.toNat
    · simp [hab, hba]
      omega
    · have heq : a.toNat = b.toNat := by omega
      simp [hab, hba, heq]

lemma leChars_total : ∀ as bs : List Char, leChars as bs = true ∨ leChars bs as = true := by
  intro as
  induction as with
  | nil => intro bs; left; rfl
  | cons a as ih =>
    intro bs
    cases bs with
    | nil => right; rfl
    | cons b bs =>
      rcases Nat.lt_trichotomy a.toNat b.toNat with h | h | h
      · left; rw [leChars_cons_iff]; exact Or.inl h
      · rcases ih bs with h2 | h2
        · left; rw [leChars_cons_iff]; exact Or.inr ⟨h, h2⟩
        · right; rw [leChars_cons_iff]; exact Or.inr ⟨h.symm, h2⟩
      · right; rw [leChars_cons_iff]; exact Or.inl h

lemma leChars_trans : ∀ as bs cs : List Char, leChars as bs = true →
    leChars bs cs = true → leChars as cs = true := by
  intro as
  induction as with
  | nil => intro bs cs _ _; rfl
  | cons a as ih =>
    intro bs cs h1 h2
    cases bs with
    | nil => simp [leChars] at h1
    | cons b bs =>
      cases cs with
      | nil => simp [leChars] at h2
      | cons c cs =>
        rw [leChars_cons_iff] at h1 h2 ⊢
        rcases h1 with h1 | ⟨h1e, h1r⟩ <;> rcases h2 with h2 | ⟨h2e, h2r⟩
        · exact Or.inl (h1.trans h2)
        · exact Or.inl (by omega)
        · exact Or.inl (by omega)
        · exact Or.inr ⟨by omega, ih bs cs h1r h2r⟩

instance strLeIsTotal : IsTotal String (fun a b => strLe a b = true) :=
  ⟨fun a b => leChars_total a.data b.data⟩

instance strLeIsTrans : IsTrans String (fun a b => strLe a b = true) :=
  ⟨fun a b c => leChars_trans a.data b.data c.data⟩

lemma analyse_eq_post {o : Oracle} {goos goarch : String} {ignore : Matchers}
    {module stdlib : Bool} {root : String} {imports : List String}
    (list lock verbose noBuiltin : Bool) (custom : String)
    (hres : resolvePhase o goos goarch ignore module stdlib = .ok (.ok (root, imports))) :
    analyse o goos goarch ignore module list lock stdlib verbose noBuiltin custom =
      .ok (postResolve o goos goarch root imports list lock verbose noBuiltin custom) := by
  unfold analyse
  rw [hres]


/-! ### Claim theorems -/

/-- C1: in comparing mode (neither `-imports` nor `-lock`), whenever import
resolution succeeds and the analyzer's compare invocation succeeds with
output `s`, the run echoes `s` to standard output verbatim as its only
output chunk, invokes the analyzer exactly once with the compare argument
vector, writes no file, and exits with the capability-change code 4 when
`s` is non-empty and with 0 when `s` is empty. -/
theorem compare_mode_echoes_output (o : Oracle) (goos goarch : String)
    (ignore : Matchers) (module stdlib verbose noBuiltin : Bool)
    (custom root : String) (imports : List String) (s : String)
    (hres : resolvePhase o goos goarch ignore module stdlib = .ok (.ok (root, imports)))
    (hrun : o.capsRun (capslockArgs goos goarch imports "compare"
      (pathJoin root "caps.lock") custom noBuiltin) = .out s) :
    analyse o goos goarch ignore module false false stdlib verbose noBuiltin custom =
      .ok ⟨if s = "" then success else capChangeError, [s],
        [capslockArgs goos goarch imports "compare" (pathJoin root "caps.lock") custom noBuiltin],
        []⟩ := by
  rw [analyse_eq_post false false verbose noBuiltin custom hres]
  by_cases hs : s = "" <;> simp [postResolve, capslock, hrun, hs]

/-- Witness for C1: in the concrete environment `oBase` the analyzer
reports the difference `diff`, which is echoed and turns the exit code
into 4. -/
theorem compare_mode_echoes_output_witness :
    analyse oBase "linux" "amd64" [] true false false true false false "" =
      .ok ⟨capChangeError, ["diff"],
        [capslockArgs "linux" "amd64" ["x/y", "a/b"] "compare" "/m/caps.lock" "" false],
        []⟩ := by
  have h := compare_mode_echoes_output oBase "linux" "amd64" [] true true false false ""
    "/m" ["x/y", "a/b"] "diff" rfl rfl
  simpa using h

/-- Counterexample for C2: with `-mod=false` the module-root query still
runs and its failure aborts the run with the internal-error code (first
conjunct), even though the claim says resolution would proceed from the
working directory; the second conjunct shows the identical invocation with
a healthy `go env GOMOD` proceeding from the working directory `/w` (the
loader only accepts the pattern rooted there). -/
theorem mod_false_gomod_failure_cex :
    analyse oC2fail "linux" "amd64" [] false true false true false false "" =
      .ok ⟨internalError, [], [], []⟩ ∧
    analyse oC2run "linux" "amd64" [] false true false true false false "" =
      .ok ⟨success, ["x/y\n"], [], []⟩ :=
  ⟨by rfl, by rfl⟩

/-- C2 (amended): the module-root query runs unconditionally, so its
failure aborts the run with the internal-error code even when
module-inclusion is not requested; when it succeeds and `-mod=false`, the
Import Resolver uses the current working directory as the root. -/
theorem mod_false_cwd_after_gomod (o : Oracle) (goos goarch : String)
    (ignore : Matchers) (list lock stdlib verbose noBuiltin : Bool)
    (custom wd : String) :
    (∀ e, o.gomodRun = .failed e →
      analyse o goos goarch ignore false list lock stdlib verbose noBuiltin custom =
        .ok ⟨internalError, [], [], []⟩) ∧
    (o.getwd = .ok wd → ∀ root imports,
      resolvePhase o goos goarch ignore false stdlib = .ok (.ok (root, imports)) →
      root = wd) :=
  ⟨fun _ hg => analyse_gomod_failed hg,
   fun hwd _ _ hres => resolve_root_cwd hwd hres⟩

/-- Witness for the amended C2: a failing `go env GOMOD` aborts a
`-mod=false` run, and a successful `-mod=false` resolution in `oC2run`
roots at the working directory `/w`. -/
theorem mod_false_cwd_after_gomod_witness :
    analyse oC2fail "linux" "amd64" [] false false false false false false "" =
      .ok ⟨internalError, [], [], []⟩ ∧ ("/w" : String) = "/w" :=
  ⟨(mod_false_cwd_after_gomod oC2fail "linux" "amd64" [] false false false false false "" "/w").1
      "exec failure" rfl,
   (mod_false_cwd_after_gomod oC2run "linux" "amd64" [] false false true false false "" "/w").2
      rfl "/w" ["x/y"] rfl⟩

/-- Counterexample for C3: when `go env GOMOD` prints nothing (the tool is
not in module-aware mode) the program exits with the invocation-error code
2, not the internal-error code 1 the claim asserts. -/
theorem non_module_mode_exit_code_cex :
    analyse oC3empty "linux" "amd64" [] true false false true false false "" =
      .ok ⟨invocationError, [], [], []⟩ ∧ invocationError ≠ internalError :=
  ⟨by rfl, by decide⟩

/-- C3 (amended): both module-root error cases — the toolchain not running
in module-aware mode (empty trimmed `GOMOD`) and a missing module
descriptor (`GOMOD` equal to the null device) — exit with the
invocation-error code 2; the internal-error code 1 arises from the
module-root query only when the `go env` command itself fails. -/
theorem moduleRoot_error_exit_codes (o : Oracle) (goos goarch : String)
    (ignore : Matchers) (module list lock stdlib verbose noBuiltin : Bool)
    (custom : String) :
    (∀ s, o.gomodRun = .out s → trimSpace s = "" →
      analyse o goos goarch ignore module list lock stdlib verbose noBuiltin custom =
        .ok ⟨invocationError, [], [], []⟩) ∧
    (∀ s, o.gomodRun = .out s → trimSpace s = o.devNull →
      analyse o goos goarch ignore module list lock stdlib verbose noBuiltin custom =
        .ok ⟨invocationError, [], [], []⟩) ∧
    (∀ e, o.gomodRun = .failed e →
      analyse o goos goarch ignore module list lock stdlib verbose noBuiltin custom =
        .ok ⟨internalError, [], [], []⟩) :=
  ⟨fun _ hg ht => analyse_gomod_invalid hg (Or.inl ht),
   fun _ hg ht => analyse_gomod_invalid hg (Or.inr ht),
   fun _ hg => analyse_gomod_failed hg⟩

/-- Witness for the amended C3: a `GOMOD` answer naming the null device
(no go.mod) exits with the invocation-error code 2. -/
theorem moduleRoot_error_exit_codes_witness :
    analyse oC3dev "linux" "amd64" [] true false false true false false "" =
      .ok ⟨invocationError, [], [], []⟩ :=
  (moduleRoot_error_exit_codes oC3dev "linux" "amd64" [] true false false true false false
    "").2.1 "/dev/null\n" rfl rfl

/-- C4: `-disable_builtin` without `-capability_map` exits with the
invocation-error code 2 for every environment, before any import
resolution or external process execution — the result is the same constant
for every oracle, with no analyzer invocation and no file write recorded. -/
theorem disable_builtin_requires_capability_map (o : Oracle)
    (lock module list stdlib verbose : Bool) (goos goarch : String)
    (ignorePatterns : List String) :
    MainRun o lock module list stdlib verbose goos goarch "" true ignorePatterns =
      .ok ⟨invocationError, [], [], []⟩ := by
  unfold MainRun
  simp

/-- C5: an import path matched by any ignore pattern (first match
short-circuits) is excluded from the resolved AnalysisTarget, regardless
of the standard-library flag and of how the classifier would answer.  The
`hord` hypothesis states only that Go map iteration yields elements of the
map. -/
theorem ignored_pattern_excluded (o : Oracle) (goos goarch : String)
    (ignore : Matchers) (module stdlib : Bool) (root imp : String)
    (imports : List String)
    (hmatch : Matchers.matched ignore imp = true)
    (hord : ∀ l x, x ∈ o.impsOrder l → x ∈ l)
    (hres : resolvePhase o goos goarch ignore module stdlib = .ok (.ok (root, imports))) :
    imp ∉ imports :=
  resolve_excludes hord (fun _ _ _ _ _ _ _ _ _ => Or.inr hmatch) hres

/-- Witness for C5: in `oBase` with the single ignore matcher accepting
`a/b`, the resolved import list is `[x/y]` and `a/b` is excluded. -/
theorem ignored_pattern_excluded_witness : ("a/b" : String) ∉ (["x/y"] : List String) :=
  ignored_pattern_excluded oBase "linux" "amd64" [fun s => s == "a/b"] true true
    "/m" "a/b" ["x/y"] rfl (fun _ _ h => h) rfl

/-- Counterexample for C6: `m/inner` is a direct import of the loaded
package `p1` and is prefixed by `p1`'s module path `m`, yet it appears in
the resolved AnalysisTarget, because the second loaded package `p2` (from
module `zzz`) also imports it and that edge is not self-prefixed. -/
theorem self_module_import_included_cex :
    (⟨"p1", some "m", ["m/inner"]⟩ : GoPackage) ∈ pkgsC6 ∧
    "m/inner" ∈ (⟨"p1", some "m", ["m/inner"]⟩ : GoPackage).imports ∧
    strPre "m" "m/inner" = true ∧
    oC6.load (pathJoin "/m" "...") = .ok (pkgsC6, 0) ∧
    resolvePhase oC6 "linux" "amd64" [] true true = .ok (.ok ("/m", ["m/inner"])) :=
  ⟨by decide, by decide, by decide, by rfl, by rfl⟩

/-- C6 (amended): a direct import prefixed by the owning package's module
path contributes nothing to the AnalysisTarget from that package; hence if
every loaded package importing the path owns it as a self-module import,
the path never appears in the AnalysisTarget.  (It can still appear when a
package from a different module imports it externally.) -/
theorem self_module_edge_never_contributes (o : Oracle) (goos goarch : String)
    (ignore : Matchers) (module stdlib : Bool) (root imp : String)
    (imports : List String)
    (hord : ∀ l x, x ∈ o.impsOrder l → x ∈ l)
    (hall : ∀ pat pkgs n, o.load pat = .ok (pkgs, n) → ∀ pkg ∈ pkgs, ∀ m,
      pkg.module = some m → imp ∈ pkg.imports → strPre m imp = true)
    (hres : resolvePhase o goos goarch ignore module stdlib = .ok (.ok (root, imports))) :
    imp ∉ imports :=
  resolve_excludes hord
    (fun pat pkgs n hl pkg hp m hm hin => Or.inl (hall pat pkgs n hl pkg hp m hm hin)) hres

/-- Witness for the amended C6: in the single-module environment `oC6w`
the self-module import `m/inner` is excluded from the resolved list. -/
theorem self_module_edge_never_contributes_witness :
    ("m/inner" : String) ∉ (["x/y"] : List String) := by
  refine self_module_edge_never_contributes oC6w "linux" "amd64" [] true true
    "/m" "m/inner" ["x/y"] (fun _ _ h => h) ?_ rfl
  intro pat pkgs n hl pkg hp m hm hin
  simp only [oC6w] at hl
  injection hl with hl
  injection hl with hl1 hl2
  subst hl1
  simp at hp
  subst hp
  simp at hm
  subst hm
  decide

/-- C7: in writing-baseline mode (`-lock`), after a successful resolution
the run invokes the analyzer with the verbose format and persists the
summary to `caps.summary` first, then invokes it with the json format and
persists the lock to `caps.lock`; an analyzer failure or write failure at
either step exits with the internal-error code 1 (and the second step is
not reached when the first fails); when `-v` is set the summary bytes are
echoed to standard output. -/
theorem lock_mode_summary_then_lock (o : Oracle) (goos goarch : String)
    (ignore : Matchers) (module stdlib verbose noBuiltin : Bool)
    (custom root : String) (imports : List String)
    (hres : resolvePhase o goos goarch ignore module stdlib = .ok (.ok (root, imports))) :
    (∀ e, o.capsRun (capslockArgs goos goarch imports "verbose"
        (pathJoin root "caps.summary") custom noBuiltin) = .failed e →
      analyse o goos goarch ignore module false true stdlib verbose noBuiltin custom =
        .ok ⟨internalError, [],
          [capslockArgs goos goarch imports "verbose" (pathJoin root "caps.summary") custom noBuiltin],
          []⟩) ∧
    (∀ s1, o.capsRun (capslockArgs goos goarch imports "verbose"
        (pathJoin root "caps.summary") custom noBuiltin) = .out s1 →
      (∀ we, o.fwrite (pathJoin root "caps.summary") s1 = some we →
        analyse o goos goarch ignore module false true stdlib verbose noBuiltin custom =
          .ok ⟨internalError, [],
            [capslockArgs goos goarch imports "verbose" (pathJoin root "caps.summary") custom noBuiltin],
            []⟩) ∧
      (o.fwrite (pathJoin root "caps.summary") s1 = none →
        (∀ e2, o.capsRun (capslockArgs goos goarch imports "json"
            (pathJoin root "caps.lock") custom noBuiltin) = .failed e2 →
          analyse o goos goarch ignore module false true stdlib verbose noBuiltin custom =
            .ok ⟨internalError, (if verbose then [s1 ++ "\n"] else []),
              [capslockArgs goos goarch imports "verbose" (pathJoin root "caps.summary") custom noBuiltin,
               capslockArgs goos goarch imports "json" (pathJoin root "caps.lock") custom noBuiltin],
              [(pathJoin root "caps.summary", s1)]⟩) ∧
        (∀ s2, o.capsRun (capslockArgs goos goarch imports "json"
            (pathJoin root "caps.lock") custom noBuiltin) = .out s2 →
          (∀ we2, o.fwrite (pathJoin root "caps.lock") s2 = some we2 →
            analyse o goos goarch ignore module false true stdlib verbose noBuiltin custom =
              .ok ⟨internalError, (if verbose then [s1 ++ "\n"] else []),
                [capslockArgs goos goarch imports "verbose" (pathJoin root "caps.summary") custom noBuiltin,
                 capslockArgs goos goarch imports "json" (pathJoin root "caps.lock") custom noBuiltin],
                [(pathJoin root "caps.summary", s1)]⟩) ∧
          (o.fwrite (pathJoin root "caps.lock") s2 = none →
            analyse o goos goarch ignore module false true stdlib verbose noBuiltin custom =
              .ok ⟨success, (if verbose then [s1 ++ "\n"] else []),
                [capslockArgs goos goarch imports "verbose" (pathJoin root "caps.summary") custom noBuiltin,
                 capslockArgs goos goarch imports "json" (pathJoin root "caps.lock") custom noBuiltin],
                [(pathJoin root "caps.summary", s1), (pathJoin root "caps.lock", s2)]⟩)))) := by
  have hpost := analyse_eq_post false true verbose noBuiltin custom hres
  refine ⟨?_, ?_⟩
  · intro e h1
    rw [hpost]
    simp [postResolve, capslock, h1]
  · intro s1 h1
    refine ⟨?_, ?_⟩
    · intro we hw
      rw [hpost]
      simp [postResolve, capslock, h1, hw]
    · intro hw1
      refine ⟨?_, ?_⟩
      · intro e2 h2
        rw [hpost]
        simp [postResolve, capslock, h1, hw1, h2]
      · intro s2 h2
        refine ⟨?_, ?_⟩
        · intro we2 hw2
          rw [hpost]
          simp [postResolve, capslock, h1, hw1, h2, hw2]
        · intro hw2
          rw [hpost]
          simp [postResolve, capslock, h1, hw1, h2, hw2]

/-- Witness for C7: in `oC7` with `-v`, the summary `SUM` is written to
`/m/caps.summary` and echoed, then the lock `LOCKJSON` is written to
`/m/caps.lock`, and the run exits 0. -/
theorem lock_mode_summary_then_lock_witness :
    analyse oC7 "linux" "amd64" [] true false true true true false "" =
      .ok ⟨success, ["SUM\n"],
        [capslockArgs "linux" "amd64" ["x/y", "a/b"] "verbose" "/m/caps.summary" "" false,
         capslockArgs "linux" "amd64" ["x/y", "a/b"] "json" "/m/caps.lock" "" false],
        [("/m/caps.summary", "SUM"), ("/m/caps.lock", "LOCKJSON")]⟩ := by
  have h := lock_mode_summary_then_lock oC7 "linux" "amd64" [] true true true false ""
    "/m" ["x/y", "a/b"] rfl
  have h2 := ((((h.2 "SUM" rfl).2 rfl).2 "LOCKJSON" rfl).2) rfl
  simpa using h2

/-- C8: with `-imports` set, after a successful resolution the run prints
the resolved import list sorted ascending (one path per line), exits 0,
never invokes the analyzer and never writes a file — so the baseline lock
and summary are neither read (the only read is the analyzer's, in compare
mode) nor written.  The sorted list is ordered and is a permutation of the
resolved set. -/
theorem imports_mode_sorted_no_baseline (o : Oracle) (goos goarch : String)
    (ignore : Matchers) (module lock stdlib verbose noBuiltin : Bool)
    (custom root : String) (imports : List String)
    (hres : resolvePhase o goos goarch ignore module stdlib = .ok (.ok (root, imports))) :
    analyse o goos goarch ignore module true lock stdlib verbose noBuiltin custom =
      .ok ⟨success, (sortStrings imports).map (fun i => i ++ "\n"), [], []⟩ ∧
    List.Sorted (fun a b => strLe a b = true) (sortStrings imports) ∧
    (sortStrings imports).Perm imports := by
  refine ⟨?_, List.sorted_insertionSort _ imports, List.perm_insertionSort _ imports⟩
  rw [analyse_eq_post true lock verbose noBuiltin custom hres]
  simp [postResolve]

/-- Witness for C8: `oBase` resolves to `[x/y, a/b]`, printed as the
sorted lines `a/b`, `x/y`, with no analyzer call and no file write. -/
theorem imports_mode_sorted_no_baseline_witness :
    analyse oBase "linux" "amd64" [] true true false true false false "" =
      .ok ⟨success, (sortStrings ["x/y", "a/b"]).map (fun i => i ++ "\n"), [], []⟩ ∧
    List.Sorted (fun a b => strLe a b = true) (sortStrings ["x/y", "a/b"]) ∧
    (sortStrings ["x/y", "a/b"]).Perm ["x/y", "a/b"] :=
  imports_mode_sorted_no_baseline oBase "linux" "amd64" [] true false true false false ""
    "/m" ["x/y", "a/b"] rfl

/-- C9: two invocations over the same resolved set (here `b` and `a`,
which are a permutation of each other) whose map-iteration orders differ
pass different comma-joined `-packages` arguments to the analyzer in the
compare and write-baseline paths — the argument vectors differ — while
the `-imports` listing path sorts before printing, so it is unaffected by
the iteration order. -/
theorem packages_arg_order_not_sorted :
    analyse oC9a "linux" "amd64" [] true false false true false false "" =
      .ok ⟨success, [""],
        [capslockArgs "linux" "amd64" ["b", "a"] "compare" "/m/caps.lock" "" false], []⟩ ∧
    analyse oC9b "linux" "amd64" [] true false false true false false "" =
      .ok ⟨success, [""],
        [capslockArgs "linux" "amd64" ["a", "b"] "compare" "/m/caps.lock" "" false], []⟩ ∧
    analyse oC9a "linux" "amd64" [] true false true true false false "" =
      .ok ⟨success, [],
        [capslockArgs "linux" "amd64" ["b", "a"] "verbose" "/m/caps.summary" "" false,
         capslockArgs "linux" "amd64" ["b", "a"] "json" "/m/caps.lock" "" false],
        [("/m/caps.summary", ""), ("/m/caps.lock", "")]⟩ ∧
    capslockArgs "linux" "amd64" ["b", "a"] "compare" "/m/caps.lock" "" false ≠
      capslockArgs "linux" "amd64" ["a", "b"] "compare" "/m/caps.lock" "" false ∧
    (["b", "a"] : List String).Perm ["a", "b"] ∧
    analyse oC9a "linux" "amd64" [] true true false true false false "" =
      .ok ⟨success, ["a\n", "b\n"], [], []⟩ := by
  refine ⟨by rfl, by rfl, by rfl, by decide, ?_, by rfl⟩
  exact List.Perm.swap _ _ _

/-- C10: when every package the loader can return carries module metadata
the run never panics (first conjunct, for an arbitrary environment
satisfying that precondition); and in the concrete environment `oC10`,
whose loader returns a package with a nil module association and a
non-empty import map, the run panics instead of reporting any error class
(second conjunct). -/
theorem nil_module_panics (o : Oracle) (goos goarch : String) (ignore : Matchers)
    (module list lock stdlib verbose noBuiltin : Bool) (custom : String)
    (hmod : ∀ pat pkgs n, o.load pat = .ok (pkgs, n) → ∀ pkg ∈ pkgs, pkg.module.isSome) :
    analyse o goos goarch ignore module list lock stdlib verbose noBuiltin custom ≠ .panicked ∧
    analyse oC10 "linux" "amd64" [] true false false true false false "" = .panicked := by
  constructor
  · intro hpan
    unfold analyse at hpan
    rcases hr : resolvePhase o goos goarch ignore module stdlib with _ | r
    · exact resolvePhase_no_panic hmod hr
    · rw [hr] at hpan
      rcases r with code | ⟨root, imports⟩ <;> simp at hpan
  · rfl

/-- Witness for C10: the healthy environment `oBase` (all packages carry a
module) never panics, while `oC10` panics. -/
theorem nil_module_panics_witness :
    analyse oBase "linux" "amd64" [] true false false true false false "" ≠ .panicked ∧
    analyse oC10 "linux" "amd64" [] true false false true false false "" = .panicked := by
  refine nil_module_panics oBase "linux" "amd64" [] true false false true false false "" ?_
  intro pat pkgs n hl pkg hp
  simp only [oBase] at hl
  injection hl with hl
  injection hl with hl1 hl2
  subst hl1
  simp at hp
  subst hp
  decide

end Cl
